import Mathlib

/-!
Shallow embedding of the HackRx-LLM retrieval backend (Python sources:
`vector_db.py`, `groq_llm.py`, `main.py`) and proofs about the spec's claims.

Strings are modelled as `List Char`; Python integer arithmetic as `Int`;
Python `IndexError` and loop non-termination are made observable through a
fuel-indexed result type. Floating-point distances are modelled as rationals:
the claims under study are about comparison direction and strictness, not
rounding.
-/

set_option maxRecDepth 8000

namespace HackRxLLM

/-- Sentence-terminator test: Python `text[i] in '.!?'` inside
`VectorDatabase._split_text`. -/
def sentenceEnder (c : Char) : Bool := c == '.' || c == '!' || c == '?'

/-- Python string indexing `s[i]`: a negative index counts from the end once;
an index out of `[-len, len)` raises `IndexError`, modelled as `none`. -/
def pyCharAt (s : List Char) (i : Int) : Option Char :=
  if 0 ≤ i then
    if i < (s.length : Int) then s.get? i.toNat else none
  else
    if 0 ≤ (s.length : Int) + i then s.get? ((s.length : Int) + i).toNat else none

/-- Python slice-bound normalisation for `s[a:b]`: a negative bound counts
from the end and clamps at 0, a nonnegative bound clamps at the length. -/
def pyBound (len : Nat) (a : Int) : Nat :=
  if a < 0 then ((len : Int) + a).toNat
  else if a < (len : Int) then a.toNat
  else len

/-- Python slicing `s[a:b]` (step 1): total, clamps both bounds. -/
def pySlice (s : List Char) (a b : Int) : List Char :=
  (s.take (pyBound s.length b)).drop (pyBound s.length a)

/-- Python `str.strip()`: remove leading and trailing whitespace. -/
def pyStrip (s : List Char) : List Char :=
  ((s.dropWhile Char.isWhitespace).reverse.dropWhile Char.isWhitespace).reverse

/-- Python `range(hi, lo, -1)`: the descending list `[hi, hi-1, ..., lo+1]`. -/
def descRange (hi lo : Int) : List Int :=
  (List.range (hi - lo).toNat).map (fun k : Nat => hi - (k : Int))

/-- The inner `for i in range(end, max(start, end - 100), -1)` scan of
`_split_text`: walk the index list, return the snapped end `i + 1` at the
first sentence terminator, `some none` if none is found, and `none` for an
`IndexError` while reading `text[i]`. -/
def scanBack (text : List Char) : List Int → Option (Option Int)
  | [] => some none
  | i :: rest =>
    match pyCharAt text i with
    | none => none
    | some c => if sentenceEnder c then some (some (i + 1)) else scanBack text rest

/-- One window-end computation of `_split_text`: keep `stop` when it already
reaches the end of the text, otherwise snap it back to just after the nearest
sentence terminator within the last 100 characters when one exists.
`none` models an `IndexError` during the scan. -/
def snapStop (text : List Char) (start stop : Int) : Option Int :=
  if stop < (text.length : Int) then
    match scanBack text (descRange stop (max start (stop - 100))) with
    | none => none
    | some none => some stop
    | some (some e) => some e
  else some stop

/-- Observable outcome of running `_split_text`'s while-loop with bounded fuel. -/
inductive SplitResult
  | ok (chunks : List (List Char))
  | indexError
  | outOfFuel
deriving DecidableEq

/-- The while-loop of `VectorDatabase._split_text`, one constructor step per
iteration: compute the window end (with sentence snap), strip the slice,
append it when non-empty, advance `start` by `stop - overlap`, and exit when
the new start reaches the end of the text. -/
def splitLoop (text : List Char) (chunkSize overlap : Nat) :
    Nat → Int → List (List Char) → SplitResult
  | 0, _, _ => .outOfFuel
  | fuel + 1, start, chunks =>
    if start < (text.length : Int) then
      match snapStop text start (start + (chunkSize : Int)) with
      | none => .indexError
      | some stop =>
        let chunk := pyStrip (pySlice text start stop)
        let next := if chunk.isEmpty then chunks else chunks ++ [chunk]
        if (text.length : Int) ≤ stop - (overlap : Int) then .ok next
        else splitLoop text chunkSize overlap fuel (stop - (overlap : Int)) next
    else .ok chunks

/-- `VectorDatabase._split_text(text, chunk_size, overlap)`: texts that fit in
one chunk are returned whole, otherwise the overlapping window loop runs. -/
def split_text (fuel : Nat) (text : List Char) (chunkSize overlap : Nat) : SplitResult :=
  if text.length ≤ chunkSize then .ok [text]
  else splitLoop text chunkSize overlap fuel 0 []

example : split_text 10 "abcdefgh".data 5 2 =
    .ok ["abcde".data, "defgh".data, "gh".data] := by decide

example : split_text 10 "Alpha causes Beta. Gamma is unrelated.".data 20 200 =
    .indexError := by decide

example : split_text 10 "Alpha causes Beta. Gamma is unrelated.".data 20 0 =
    .ok ["Alpha causes Beta.".data, "Gamma is unrelated.".data] := by decide

/-! ## Vector database (`vector_db.py`)

The ChromaDB collection is modelled as a list of persisted entries keyed by
identifier; `collection.add` appends, `collection.delete(ids=[id])` removes
the entries with that identifier. Embeddings and identifier generation
(`uuid.uuid4`) are injected as function parameters. -/

/-- One persisted record of the collection: identifier, embedding vector,
chunk text and metadata, as assembled by `VectorDatabase.add_document`. -/
structure IndexEntry where
  id : String
  embedding : List ℚ
  document : List Char
  metadata : List (String × String)
deriving DecidableEq

/-- `VectorDatabase.add_document`: split the text with
`_split_text(text, chunk_size=1000, overlap=200)`, embed each chunk, generate
one fresh identifier per chunk, add all entries to the collection, and return
the FIRST chunk's identifier as the document id. `none` models the call
failing inside `_split_text` (the fuel `text.length + 1` is proved sufficient
below). -/
def add_document (embed : List Char → List ℚ) (gen : Nat → String)
    (db : List IndexEntry) (text : List Char) (metadata : List (String × String)) :
    Option (String × List IndexEntry) :=
  match split_text (text.length + 1) text 1000 200 with
  | .ok chunks =>
    let ids := (List.range chunks.length).map gen
    let entries := (chunks.zip ids).map (fun p => IndexEntry.mk p.2 (embed p.1) p.1 metadata)
    some (ids.getD 0 "", db ++ entries)
  | _ => none

/-- `VectorDatabase.delete_document`: `collection.delete(ids=[doc_id])` —
remove exactly the entries carrying that identifier, report success. -/
def delete_document (db : List IndexEntry) (docId : String) : List IndexEntry × Bool :=
  (db.filter (fun e => !(e.id == docId)), true)

/-! ## Generation client (`groq_llm.py`) -/

/-- Python `str.strip()` on the `String` wrapper. -/
def pyStripS (s : String) : String := String.mk (pyStrip s.data)

/-- A JSON value, as produced by `response.json()`. -/
inductive Json
  | null
  | bool (b : Bool)
  | num (n : Int)
  | str (s : String)
  | arr (elems : List Json)
  | obj (fields : List (String × Json))

/-- The Python exception classes that the drill
`r.json()["candidates"][0]["content"]["parts"][0]["text"].strip()` can raise:
`keyError` and `indexError` are caught by `gemini_call`'s
`except (KeyError, IndexError)` clause; `typeError` (subscripting a
non-subscriptable or wrongly-typed value) and `attributeError` (`.strip()` on
a non-string) are caught by NEITHER clause and escape. -/
inductive PyExc
  | keyError
  | indexError
  | typeError
  | attributeError
deriving DecidableEq

/-- Dictionary lookup for Python `d[key]`: `KeyError` when absent. -/
def lookupField : List (String × Json) → String → Except PyExc Json
  | [], _ => .error .keyError
  | p :: rest, k => if p.1 = k then .ok p.2 else lookupField rest k

/-- Python `x[key]` with a string key: value lookup on a dict, `TypeError` on
a list (`list indices must be integers`), a string, or any non-subscriptable
value (`None`, bool, number). -/
def pyGetKey : Json → String → Except PyExc Json
  | .obj fields, k => lookupField fields k
  | .arr _, _ => .error .typeError
  | .str _, _ => .error .typeError
  | _, _ => .error .typeError

/-- Python `x[i]` with a nonnegative integer index: list indexing
(`IndexError` out of range), `KeyError` on a JSON dict (its keys are
strings), the one-character string on a string, `TypeError` on any
non-subscriptable value. -/
def pyGetIdx : Json → Nat → Except PyExc Json
  | .arr xs, i =>
    match xs.get? i with
    | some v => .ok v
    | none => .error .indexError
  | .obj _, _ => .error .keyError
  | .str s, i =>
    match s.data.get? i with
    | some c => .ok (.str (String.mk [c]))
    | none => .error .indexError
  | _, _ => .error .typeError

/-- The response drill of `gemini_call`:
`body["candidates"][0]["content"]["parts"][0]["text"].strip()`, with the
final `.strip()` raising `AttributeError` when the `text` field is not a
string (`null`, number, list, dict). -/
def extractText (body : Json) : Except PyExc String := do
  let cands ← pyGetKey body "candidates"
  let c0 ← pyGetIdx cands 0
  let content ← pyGetKey c0 "content"
  let parts ← pyGetKey content "parts"
  let p0 ← pyGetIdx parts 0
  let t ← pyGetKey p0 "text"
  match t with
  | .str s => .ok (pyStripS s)
  | _ => .error .attributeError

/-- Outcome of the one `requests.post` round trip in `gemini_call`:
`requestException` covers everything the `except requests.RequestException`
clause catches (network failure, timeout, the `raise_for_status` HTTPError on
4xx/5xx including 429, and an invalid-JSON body), `body` is an HTTP 2xx
response with its parsed JSON body. -/
inductive ApiOutcome
  | requestException (msg : String)
  | body (json : Json)

/-- `gemini_call(prompt)`: local rejection of empty/whitespace-only prompts
with zero backend calls, strip + 4000-character truncation with a visible
`...` marker, then one backend call. `RequestException`s and the drill's
`KeyError`/`IndexError` are converted to returned error strings; the drill's
`TypeError`/`AttributeError` escape as raised exceptions (`Except.error`).
Returns the outcome together with the number of backend calls made. -/
def gemini_call (net : String → ApiOutcome) (prompt : String) :
    Except PyExc String × Nat :=
  if pyStripS prompt = "" then (.ok "Error: Empty prompt provided.", 0)
  else
    let p := pyStripS prompt
    let p := if 4000 < p.length then String.mk (p.data.take 4000) ++ "..." else p
    match net p with
    | .requestException e => (.ok ("Error: API request failed - " ++ e), 1)
    | .body j =>
      match extractText j with
      | .ok t => (.ok t, 1)
      | .error .keyError => (.ok "Error: Unexpected API response format.", 1)
      | .error .indexError => (.ok "Error: Unexpected API response format.", 1)
      | .error exc => (.error exc, 1)

/-- `answer_question(context, question)`: validate, truncate the context to
3500 characters, build the grounding prompt and delegate to `gemini_call`;
returns a string for every handled failure, raises (`Except.error`) exactly
when `gemini_call` does. -/
def answer_question (net : String → ApiOutcome) (context question : String) :
    Except PyExc String :=
  if context = "" || question = "" then .ok "Error: Context and question are required."
  else
    let c := String.mk ((pyStripS context).data.take 3500)
    let q := pyStripS question
    let prompt := "Context:\n" ++ c ++ "\n\nQuestion: " ++ q ++
      "\nAnswer concisely and accurately:"
    (gemini_call net prompt).1

/-! ## Retry layer (`main.py`, `try_answer_with_retry`) -/

/-- `a` matches the front of `b` (character-wise). -/
def matchesFront : List Char → List Char → Bool
  | [], _ => true
  | _ :: _, [] => false
  | a :: as, b :: bs => a == b && matchesFront as bs

/-- Python `needle in hay` on strings: substring containment. -/
def hasSub (needle : List Char) : List Char → Bool
  | [] => needle.isEmpty
  | c :: rest => matchesFront needle (c :: rest) || hasSub needle rest

/-- The `for attempt in range(1, max_retries + 1)` loop of
`try_answer_with_retry`, recursing on the number of remaining iterations.
The backend oracle maps the attempt number to either a returned answer
(`Except.ok`) or a raised exception's message (`Except.error`). Returns the
answer, the list of sleeps performed (seconds), and the attempt count on
which the loop finished. -/
def retryLoop (backend : Nat → Except String String) (maxRetries : Nat) :
    Nat → Nat → Nat → List Nat → String × List Nat × Nat
  | 0, attempt, _, sleeps => ("Failed to answer due to unknown error.", sleeps, attempt - 1)
  | remaining + 1, attempt, backoff, sleeps =>
    match backend attempt with
    | .ok v => (v, sleeps, attempt)
    | .error e =>
      if hasSub "429".data e.data = true ∧ attempt < maxRetries then
        retryLoop backend maxRetries remaining (attempt + 1) (backoff * 2) (sleeps ++ [backoff])
      else ("Failed to answer due to rate limiting or internal error.", sleeps, attempt)

/-- `try_answer_with_retry` against an arbitrary (possibly raising) backend:
attempts start at 1, initial backoff 2 seconds. -/
def tryAnswerWithRetry (backend : Nat → Except String String) (maxRetries : Nat) :
    String × List Nat × Nat :=
  retryLoop backend maxRetries maxRetries 1 2 []

/-- `try_answer_with_retry(context, question)` as actually composed in
`main.py`: the loop body `return answer_question(context, question)` either
returns a string or raises an uncaught `TypeError`/`AttributeError` from the
response drill; `excStr` models Python's `str(e)` for the raised exception
object, which the `except` clause inspects for the substring `"429"`. -/
def try_answer_with_retry (excStr : PyExc → String) (net : String → ApiOutcome)
    (context question : String) : String × List Nat × Nat :=
  tryAnswerWithRetry
    (fun _ =>
      match answer_question net context question with
      | .ok v => Except.ok v
      | .error exc => Except.error (excStr exc)) 3

/-- The per-question loop of the `/hackrx/run` endpoint: one
`try_answer_with_retry` call per question, answers appended in order. The
backend oracle is per-question and per-attempt so that raising backends (the
error-handling claims' framing) are expressible. -/
def answerLoop (backend : String → Nat → Except String String) : List String → List String
  | [] => []
  | q :: rest => (tryAnswerWithRetry (backend q) 3).1 :: answerLoop backend rest

/-! ## HTTP surface (`main.py`) -/

/-- Outcome of `verify_token`: an `HTTPException(status, detail)` or success. -/
structure HttpErr where
  status : Nat
  detail : String
deriving DecidableEq

/-- Python `s.split(" ")`: split on every single space, keeping empty parts. -/
def splitOnSpace : List Char → List (List Char)
  | [] => [[]]
  | c :: rest =>
    let r := splitOnSpace rest
    if c == ' ' then [] :: r
    else
      match r with
      | [] => [[c]]
      | h :: t => (c :: h) :: t

/-- `verify_token(request)`: 401 when the `Authorization` header is absent or
does not start with `"Bearer "` (Python `auth.startswith`, modelled as a
character-wise front match), 403 when the token `auth.split(" ")[1]` differs
from the configured key. -/
def verify_token (apiKey : String) : Option String → Except HttpErr Unit
  | none => .error ⟨401, "Missing or invalid Authorization header"⟩
  | some auth =>
    if ¬ matchesFront "Bearer ".data auth.data then
      .error ⟨401, "Missing or invalid Authorization header"⟩
    else if (splitOnSpace auth.data).getD 1 [] ≠ apiKey.data then
      .error ⟨403, "Invalid API key"⟩
    else .ok ()

/-- The endpoints named by the spec's authentication sentence. -/
inductive Endpoint
  | hackrxRun
  | upload
  | ask
  | simulate
  | vectorSearch
  | vectorStats
  | vectorDelete
deriving DecidableEq

/-- Which route declarations in `main.py` carry `auth=Depends(verify_token)`:
only `/hackrx/run` does. -/
def requiresAuth : Endpoint → Bool
  | .hackrxRun => true
  | _ => false

/-- Whether a request was rejected by the dependency or reached the handler body. -/
inductive HandleOutcome
  | rejected (status : Nat)
  | bodyExecuted
deriving DecidableEq

/-- FastAPI dispatch for one request: dependencies run before the endpoint
body, and an endpoint without the dependency runs its body unconditionally. -/
def handleRequest (apiKey : String) (ep : Endpoint) (authHeader : Option String) :
    HandleOutcome :=
  if requiresAuth ep then
    match verify_token apiKey authHeader with
    | .error e => .rejected e.status
    | .ok _ => .bodyExecuted
  else .bodyExecuted

/-! ## Hybrid search (`main.py`, `hybrid_search`) -/

/-- One formatted result of `VectorDatabase.search_similar`: document text and
cosine distance (modelled as a rational). -/
structure SearchResult where
  document : String
  distance : ℚ
deriving DecidableEq

/-- The context-assembly loop of `hybrid_search`: append `result['document']`
exactly when `result['distance'] < 0.8`. -/
def hybridContext (results : List SearchResult) : List String :=
  results.foldl (fun acc r => if r.distance < 4/5 then acc ++ [r.document] else acc) []

/-- The tail of `hybrid_search`: join the surviving texts with a blank line;
an empty combined context short-circuits to the fixed no-relevant-documents
answer, otherwise `answer_question(combined_context, query)` runs. The
boolean records whether the generation backend was invoked. -/
def hybridAnswer (gen : String → String → String) (query : String)
    (results : List SearchResult) : String × Bool :=
  let combined := String.intercalate "\n\n" (hybridContext results)
  if combined.isEmpty then ("No relevant documents found in the database.", false)
  else (gen combined query, true)

/-! ## Concrete sample data -/

/-- A 1200-character document: 999 letters, a period, 200 more letters.
Long enough that `add_document`'s parameterisation produces two chunks. -/
def sampleText : List Char := List.replicate 999 'a' ++ ['.'] ++ List.replicate 200 'a'

/-- `add_document` run on `sampleText` with a trivial embedder and the
identifier supply `0, 1, 2, ...`. -/
def sampleAdd : Option (String × List IndexEntry) :=
  add_document (fun _ => []) (fun n => toString n) [] sampleText []

/-- A syntactically valid JSON response body whose `text` field is `null`:
the drill reaches `"text"` successfully and then `None.strip()` raises an
`AttributeError` that `gemini_call` does not catch. -/
def nullTextBody : Json :=
  .obj [("candidates", .arr [.obj [("content",
    .obj [("parts", .arr [.obj [("text", Json.null)]])])]])]

/-- A well-formed response body whose `text` field is `"The answer"`. -/
def goodBody : Json :=
  .obj [("candidates", .arr [.obj [("content",
    .obj [("parts", .arr [.obj [("text", Json.str "The answer")]])])]])]

example : sampleAdd.map (fun p => p.2.map IndexEntry.id) = some ["0", "1"] := by decide

/-- Whether a text contains any sentence-terminator character: a text without
one is a single atomic sentence for the chunker. -/
def hasSentenceEnder (s : List Char) : Bool := s.any sentenceEnder

/-! ## Helper lemmas about the chunker primitives -/

theorem dropWhile_length_le (p : Char → Bool) (l : List Char) :
    (l.dropWhile p).length ≤ l.length := by
  induction l with
  | nil => simp [List.dropWhile]
  | cons c t ih =>
    by_cases h : p c
    · simp only [List.dropWhile, h]
      simpa using Nat.le_succ_of_le ih
    · simp [List.dropWhile, h]

theorem pyStrip_length_le (s : List Char) : (pyStrip s).length ≤ s.length := by
  have h1 := dropWhile_length_le Char.isWhitespace s
  have h2 := dropWhile_length_le Char.isWhitespace
    ((s.dropWhile Char.isWhitespace).reverse)
  simp only [pyStrip, List.length_reverse] at *
  omega

theorem pySlice_length_le (s : List Char) {a b : Int} {K : Nat}
    (hab : a ≤ b) (hK : b ≤ a + (K : Int)) : (pySlice s a b).length ≤ K := by
  unfold pySlice pyBound
  simp only [List.length_drop, List.length_take]
  split_ifs <;> omega

theorem mem_descRange {hi lo i : Int} (h : i ∈ descRange hi lo) : lo < i ∧ i ≤ hi := by
  simp only [descRange, List.mem_map, List.mem_range] at h
  obtain ⟨k, hk, rfl⟩ := h
  omega

theorem scanBack_ne_none {text : List Char} {l : List Int}
    (h : ∀ i ∈ l, 0 ≤ i ∧ i < (text.length : Int)) : scanBack text l ≠ none := by
  induction l with
  | nil => simp [scanBack]
  | cons i rest ih =>
    obtain ⟨h0, h1⟩ := h i (List.mem_cons_self ..)
    obtain ⟨c, hc⟩ : ∃ c, pyCharAt text i = some c := by
      unfold pyCharAt
      rw [if_pos h0, if_pos h1]
      cases hg : text.get? i.toNat with
      | none => rw [List.get?_eq_none] at hg; omega
      | some c => exact ⟨c, rfl⟩
    simp only [scanBack, hc]
    by_cases hse : sentenceEnder c
    · simp [hse]
    · simp only [hse, if_neg]
      exact ih (fun j hj => h j (List.mem_cons_of_mem _ hj))

theorem scanBack_found {text : List Char} {l : List Int} {e : Int}
    (h : scanBack text l = some (some e)) : ∃ i ∈ l, e = i + 1 := by
  induction l with
  | nil => simp [scanBack] at h
  | cons i rest ih =>
    simp only [scanBack] at h
    cases hc : pyCharAt text i with
    | none => rw [hc] at h; simp at h
    | some c =>
      simp only [hc] at h
      by_cases hse : sentenceEnder c
      · rw [if_pos hse] at h
        simp only [Option.some.injEq] at h
        exact ⟨i, List.mem_cons_self .., by omega⟩
      · rw [if_neg hse] at h
        obtain ⟨j, hj, hje⟩ := ih h
        exact ⟨j, List.mem_cons_of_mem _ hj, hje⟩

theorem snapStop_ne_none {text : List Char} {start stop : Int} (h0 : 0 ≤ start) :
    snapStop text start stop ≠ none := by
  unfold snapStop
  split_ifs with hlt
  · have hvalid : ∀ i ∈ descRange stop (max start (stop - 100)),
        0 ≤ i ∧ i < (text.length : Int) := by
      intro i hi
      obtain ⟨hgt, hle⟩ := mem_descRange hi
      have hm := le_max_left start (stop - 100)
      omega
    cases hsc : scanBack text (descRange stop (max start (stop - 100))) with
    | none => exact absurd hsc (scanBack_ne_none hvalid)
    | some r => cases r <;> simp
  · simp

theorem snapStop_bounds {text : List Char} {start stop e : Int}
    (hss : start ≤ stop) (h : snapStop text start stop = some e) :
    start ≤ e ∧ e ≤ stop + 1 := by
  unfold snapStop at h
  split_ifs at h with hlt
  · rcases hsc : scanBack text (descRange stop (max start (stop - 100))) with _ | (_ | e2) <;>
      rw [hsc] at h
    · simp at h
    · simp only [Option.some.injEq] at h
      omega
    · simp only [Option.some.injEq] at h
      obtain ⟨i, hi, hie⟩ := scanBack_found hsc
      obtain ⟨hgt, hle⟩ := mem_descRange hi
      have hm := le_max_left start (stop - 100)
      omega
  · simp only [Option.some.injEq] at h
    omega

theorem snapStop_window {text : List Char} {start stop e : Int}
    (h100 : start + 100 ≤ stop) (h : snapStop text start stop = some e) :
    stop - 98 ≤ e ∧ e ≤ stop + 1 := by
  unfold snapStop at h
  split_ifs at h with hlt
  · rw [max_eq_right (by omega : start ≤ stop - 100)] at h
    rcases hsc : scanBack text (descRange stop (stop - 100)) with _ | (_ | e2) <;>
      rw [hsc] at h
    · simp at h
    · simp only [Option.some.injEq] at h
      omega
    · simp only [Option.some.injEq] at h
      obtain ⟨i, hi, hie⟩ := scanBack_found hsc
      obtain ⟨hgt, hle⟩ := mem_descRange hi
      omega
  · simp only [Option.some.injEq] at h
    omega

/-- Fuel adequacy of `_split_text`'s loop at the pipeline's parameters
`chunk_size = 1000`, `overlap = 200`: from a nonnegative start, each
iteration advances the start by at least `1000 - 200 - 99` characters, so
`text.length + 1` iterations always suffice and no index error occurs. -/
theorem splitLoop_ok_1000_200 (text : List Char) :
    ∀ (fuel : Nat) (start : Int) (acc : List (List Char)),
    1 ≤ fuel → 0 ≤ start → (text.length : Int) < start + fuel →
    ∃ cs, splitLoop text 1000 200 fuel start acc = .ok cs := by
  intro fuel
  induction fuel with
  | zero => intro start acc h1; omega
  | succ n ih =>
    intro start acc _ h0 hlen
    by_cases hs : start < (text.length : Int)
    · cases hsnap : snapStop text start (start + ((1000 : Nat) : Int)) with
      | none => exact absurd hsnap (snapStop_ne_none h0)
      | some stop =>
        have hw := snapStop_window (by omega) hsnap
        simp only [splitLoop]
        rw [if_pos hs]
        simp only [hsnap]
        by_cases hend : (text.length : Int) ≤ stop - ((200 : Nat) : Int)
        · rw [if_pos hend]
          exact ⟨_, rfl⟩
        · rw [if_neg hend]
          exact ih (stop - ((200 : Nat) : Int)) _ (by omega) (by omega) (by omega)
    · simp only [splitLoop]
      rw [if_neg hs]
      exact ⟨acc, rfl⟩

/-- Size invariant of `_split_text`'s loop for arbitrary parameters: whenever
the loop returns normally, every accumulated chunk has length at most
`chunk_size + 1` (the window is `chunk_size` wide and the sentence snap can
extend it by one character at most). -/
theorem splitLoop_chunk_bound (text : List Char) (cs ov : Nat) :
    ∀ (fuel : Nat) (start : Int) (acc out : List (List Char)),
    (∀ c ∈ acc, c.length ≤ cs + 1) →
    splitLoop text cs ov fuel start acc = .ok out →
    ∀ c ∈ out, c.length ≤ cs + 1 := by
  intro fuel
  induction fuel with
  | zero => intro start acc out hacc h; simp [splitLoop] at h
  | succ n ih =>
    intro start acc out hacc h
    simp only [splitLoop] at h
    by_cases hs : start < (text.length : Int)
    · rw [if_pos hs] at h
      cases hsnap : snapStop text start (start + (cs : Int)) with
      | none => rw [hsnap] at h; simp at h
      | some stop =>
        rw [hsnap] at h
        simp only at h
        have hb := snapStop_bounds (by omega : start ≤ start + (cs : Int)) hsnap
        have hchunk : (pyStrip (pySlice text start stop)).length ≤ cs + 1 := by
          have hsl := pySlice_length_le text (a := start) (b := stop) (K := cs + 1)
            (by omega) (by push_cast; omega)
          have hst := pyStrip_length_le (pySlice text start stop)
          omega
        have hnextinv : ∀ c ∈ (if (pyStrip (pySlice text start stop)).isEmpty then acc
            else acc ++ [pyStrip (pySlice text start stop)]), c.length ≤ cs + 1 := by
          intro c hc
          split_ifs at hc
          · exact hacc c hc
          · rcases List.mem_append.mp hc with h1 | h1
            · exact hacc c h1
            · rw [List.mem_singleton.mp h1]
              exact hchunk
        by_cases hend : (text.length : Int) ≤ stop - (ov : Int)
        · rw [if_pos hend] at h
          obtain rfl : _ = out := by injection h
          exact hnextinv
        · rw [if_neg hend] at h
          exact ih _ _ out hnextinv h
    · rw [if_neg hs] at h
      obtain rfl : acc = out := by injection h
      exact hacc

/-- The per-question answer loop is a map of the per-question retry call. -/
theorem answerLoop_eq_map (backend : String → Nat → Except String String)
    (qs : List String) :
    answerLoop backend qs = qs.map (fun q => (tryAnswerWithRetry (backend q) 3).1) := by
  induction qs with
  | nil => rfl
  | cons q rest ih => simp [answerLoop, ih]

/-- The context-assembly fold of `hybrid_search` appends exactly the documents
of the results passing the strict `distance < 0.8` filter, in order. -/
theorem hybrid_foldl_eq (results : List SearchResult) (acc : List String) :
    results.foldl (fun a r => if r.distance < 4/5 then a ++ [r.document] else a) acc =
      acc ++ (results.filter (fun r => decide (r.distance < 4/5))).map
        SearchResult.document := by
  induction results generalizing acc with
  | nil => simp
  | cons r rest ih =>
    by_cases h : r.distance < 4/5
    · simp [List.foldl_cons, List.filter_cons, h, ih]
    · simp [List.foldl_cons, List.filter_cons, h, ih]

/-! ## Claim theorems -/

/-- Claim C1: against a backend that raises a rate-limit (`"429"`) error on
the first two attempts and succeeds on the third, `try_answer_with_retry`
returns the successful answer after exactly 3 attempts and sleeps 2 seconds
after the first failure and 4 seconds after the second. -/
theorem C1_retry_backoff (backend : Nat → Except String String) (v e1 e2 : String)
    (h1 : backend 1 = Except.error e1) (h2 : backend 2 = Except.error e2)
    (h3 : backend 3 = Except.ok v)
    (r1 : hasSub "429".data e1.data = true) (r2 : hasSub "429".data e2.data = true) :
    tryAnswerWithRetry backend 3 = (v, [2, 4], 3) := by
  show retryLoop backend 3 (2 + 1) 1 2 [] = (v, [2, 4], 3)
  simp only [retryLoop, h1]
  rw [if_pos ⟨r1, by omega⟩]
  show retryLoop backend 3 (1 + 1) 2 4 [2] = (v, [2, 4], 3)
  simp only [retryLoop, h2]
  rw [if_pos ⟨r2, by omega⟩]
  show retryLoop backend 3 (0 + 1) 3 8 [2, 4] = (v, [2, 4], 3)
  simp only [retryLoop, h3]

/-- Witness for C1 at a concrete twice-failing-then-succeeding backend. -/
theorem C1_retry_backoff_witness :
    tryAnswerWithRetry
      (fun n => if n ≤ 2 then Except.error "HTTP 429 Too Many Requests"
        else Except.ok "the answer") 3 = ("the answer", [2, 4], 3) :=
  C1_retry_backoff
    (fun n => if n ≤ 2 then Except.error "HTTP 429 Too Many Requests"
      else Except.ok "the answer")
    "the answer" "HTTP 429 Too Many Requests" "HTTP 429 Too Many Requests"
    rfl rfl rfl (by decide) (by decide)

/-- Claim C2 counterexample: the chunker DOES split mid-word. The text
`"abcdefgh"` is a single atomic sentence (no terminator) of length 8 > 5, yet
`_split_text` with `chunk_size = 5` cuts it into `"abcde"`, `"defgh"`, `"gh"`
instead of emitting it whole; and on `"ab. de.xy"` it emits the chunk
`"b. de."` of length 6 > 5 that is not an oversized atomic sentence. -/
theorem C2_counterexample :
    hasSentenceEnder "abcdefgh".data = false ∧
    5 < "abcdefgh".data.length ∧
    split_text 10 "abcdefgh".data 5 2 =
      SplitResult.ok ["abcde".data, "defgh".data, "gh".data] ∧
    split_text 10 "abcdefgh".data 5 2 ≠ SplitResult.ok ["abcdefgh".data] ∧
    split_text 10 "ab. de.xy".data 5 2 =
      SplitResult.ok ["ab.".data, "b. de.".data, "e.xy".data, "y".data] ∧
    ("b. de.".data).length = 6 := by decide

/-- Claim C2 (amended): whenever `_split_text` returns normally, every emitted
chunk has length at most `chunk_size + 1`; an atomic sentence longer than
`chunk_size` is cut at the window boundary, never passed through oversized. -/
theorem C2_chunk_length_bound (text : List Char) (cs ov fuel : Nat)
    (out : List (List Char)) (h : split_text fuel text cs ov = SplitResult.ok out) :
    ∀ c ∈ out, c.length ≤ cs + 1 := by
  unfold split_text at h
  split_ifs at h with hfit
  · obtain rfl : [text] = out := by injection h
    intro c hc
    rw [List.mem_singleton.mp hc]
    omega
  · exact splitLoop_chunk_bound text cs ov fuel 0 [] out (by simp) h

/-- Witness for the amended C2 at a concrete split. -/
theorem C2_chunk_length_bound_witness : ("abcde".data).length ≤ 5 + 1 :=
  C2_chunk_length_bound "abcdefgh".data 5 2 10
    ["abcde".data, "defgh".data, "gh".data] (by decide) "abcde".data (by decide)

/-- Claim C3 counterexample: the upload, ask, simulate and vector endpoints
carry no `Depends(verify_token)`, so a request with NO Authorization header
reaches the endpoint body instead of being rejected with 401. -/
theorem C3_counterexample_unauthenticated :
    handleRequest "hack" Endpoint.upload none = HandleOutcome.bodyExecuted ∧
    handleRequest "hack" Endpoint.ask none = HandleOutcome.bodyExecuted ∧
    handleRequest "hack" Endpoint.simulate none = HandleOutcome.bodyExecuted ∧
    handleRequest "hack" Endpoint.vectorSearch none = HandleOutcome.bodyExecuted ∧
    handleRequest "hack" Endpoint.vectorStats none = HandleOutcome.bodyExecuted ∧
    handleRequest "hack" Endpoint.vectorDelete none = HandleOutcome.bodyExecuted := by
  decide

/-- Claim C3 (amended): only the batch `/hackrx/run` endpoint enforces the
bearer check — 401 when the header is missing or malformed, 403 when the
token mismatches, success otherwise, all before the body runs — while the
upload, ask, simulate and vector endpoints run their bodies with no check. -/
theorem C3_only_batch_authenticated (apiKey : String) (authHeader : Option String) :
    handleRequest apiKey Endpoint.hackrxRun none = HandleOutcome.rejected 401 ∧
    (∀ a : String, ¬ matchesFront "Bearer ".data a.data = true →
      handleRequest apiKey Endpoint.hackrxRun (some a) = HandleOutcome.rejected 401) ∧
    (∀ a : String, matchesFront "Bearer ".data a.data = true →
      (splitOnSpace a.data).getD 1 [] ≠ apiKey.data →
      handleRequest apiKey Endpoint.hackrxRun (some a) = HandleOutcome.rejected 403) ∧
    (∀ a : String, matchesFront "Bearer ".data a.data = true →
      (splitOnSpace a.data).getD 1 [] = apiKey.data →
      handleRequest apiKey Endpoint.hackrxRun (some a) = HandleOutcome.bodyExecuted) ∧
    (∀ ep : Endpoint, ep ≠ Endpoint.hackrxRun →
      handleRequest apiKey ep authHeader = HandleOutcome.bodyExecuted) := by
  have hlift : ∀ (a : String) (r : Except HttpErr Unit), verify_token apiKey (some a) = r →
      handleRequest apiKey Endpoint.hackrxRun (some a) =
        (match r with
          | .error e => HandleOutcome.rejected e.status
          | .ok _ => HandleOutcome.bodyExecuted) := by
    intro a r hr
    show (match verify_token apiKey (some a) with
      | .error e => HandleOutcome.rejected e.status
      | .ok _ => HandleOutcome.bodyExecuted) = _
    rw [hr]
  refine ⟨rfl, ?_, ?_, ?_, ?_⟩
  · intro a ha
    exact hlift a _ (by simp only [verify_token]; rw [if_pos ha])
  · intro a ha hne
    exact hlift a _ (by simp only [verify_token]; rw [if_neg (fun hc => hc ha), if_pos hne])
  · intro a ha heq
    exact hlift a _
      (by simp only [verify_token]; rw [if_neg (fun hc => hc ha), if_neg (fun hc => hc heq)])
  · intro ep hep
    cases ep <;> first | exact absurd rfl hep | rfl

/-- Witness for the amended C3: wrong bearer token on the batch endpoint. -/
theorem C3_only_batch_authenticated_witness :
    handleRequest "hack" Endpoint.hackrxRun (some "Bearer wrongkey") =
      HandleOutcome.rejected 403 :=
  (C3_only_batch_authenticated "hack" none).2.2.1 "Bearer wrongkey"
    (by decide) (by decide)

/-- Claim C4: the batch loop returns exactly one answer per question, in the
questions' order, each answer being that question's own retry-layer result;
and a question whose generation keeps failing with a rate-limit error yields
the sentinel failure string (so it cannot abort the others). -/
theorem C4_one_answer_per_question (backend : String → Nat → Except String String)
    (questions : List String) :
    (answerLoop backend questions).length = questions.length ∧
    answerLoop backend questions =
      questions.map (fun q => (tryAnswerWithRetry (backend q) 3).1) ∧
    (∀ b : Nat → Except String String,
      (∀ n : Nat, ∃ e, b n = Except.error e ∧ hasSub "429".data e.data = true) →
      (tryAnswerWithRetry b 3).1 =
        "Failed to answer due to rate limiting or internal error.") := by
  refine ⟨?_, answerLoop_eq_map backend questions, ?_⟩
  · rw [answerLoop_eq_map backend questions, List.length_map]
  · intro b hb
    obtain ⟨e1, hb1, hr1⟩ := hb 1
    obtain ⟨e2, hb2, hr2⟩ := hb 2
    obtain ⟨e3, hb3, hr3⟩ := hb 3
    show (retryLoop b 3 (2 + 1) 1 2 []).1 = _
    simp only [retryLoop, hb1]
    rw [if_pos ⟨hr1, by omega⟩]
    show (retryLoop b 3 (1 + 1) 2 4 [2]).1 = _
    simp only [retryLoop, hb2]
    rw [if_pos ⟨hr2, by omega⟩]
    show (retryLoop b 3 (0 + 1) 3 8 [2, 4]).1 = _
    simp only [retryLoop, hb3]
    rw [if_neg (fun hh => absurd hh.2 (by omega))]

/-- Witness for C4 at an always-rate-limited backend. -/
theorem C4_one_answer_per_question_witness :
    (tryAnswerWithRetry (fun _ => Except.error "code 429") 3).1 =
      "Failed to answer due to rate limiting or internal error." :=
  (C4_one_answer_per_question (fun _ _ => Except.error "code 429") []).2.2
    (fun _ => Except.error "code 429") (fun _ => ⟨"code 429", rfl, by decide⟩)

/-- Claim C5: a retrieved result's text enters the assembled context exactly
when its distance is strictly below 0.8 (lower = more similar), and when no
result passes the filter the endpoint answers with the fixed
no-relevant-documents string without invoking the generation backend. -/
theorem C5_distance_threshold (results : List SearchResult)
    (gen : String → String → String) (query : String) :
    hybridContext results =
      (results.filter (fun r => decide (r.distance < 4/5))).map SearchResult.document ∧
    (results.filter (fun r => decide (r.distance < 4/5)) = [] →
      hybridAnswer gen query results =
        ("No relevant documents found in the database.", false)) := by
  constructor
  · simpa using hybrid_foldl_eq results []
  · intro hempty
    have hctx : hybridContext results = [] := by
      unfold hybridContext
      rw [hybrid_foldl_eq, hempty]
      rfl
    unfold hybridAnswer
    rw [hctx]
    rfl

/-- Witness for C5: one result at distance 0.9 is filtered out and the fixed
answer is returned with the generation flag false. -/
theorem C5_distance_threshold_witness :
    hybridAnswer (fun c q => c ++ q) "query" [SearchResult.mk "far doc" (9/10)] =
      ("No relevant documents found in the database.", false) :=
  (C5_distance_threshold [SearchResult.mk "far doc" (9/10)] (fun c q => c ++ q)
    "query").2 (by norm_num [List.filter])

/-- Claim C6: an empty or whitespace-only prompt makes `gemini_call` return
the local validation-failure string with zero backend calls. -/
theorem C6_empty_prompt_local (net : String → ApiOutcome) (prompt : String)
    (h : pyStripS prompt = "") :
    gemini_call net prompt = (Except.ok "Error: Empty prompt provided.", 0) := by
  unfold gemini_call
  rw [if_pos h]

/-- Witness for C6 at a whitespace-only prompt. -/
theorem C6_empty_prompt_local_witness :
    gemini_call (fun _ => ApiOutcome.body Json.null) "   " =
      (Except.ok "Error: Empty prompt provided.", 0) :=
  C6_empty_prompt_local (fun _ => ApiOutcome.body Json.null) "   " (by decide)

/-- Claim C7 (code evaluation at the failing input): `_split_text` on
`"Alpha causes Beta. Gamma is unrelated."` with `chunk_size = 20` and the
default `overlap = 200` raises `IndexError` — after the first chunk the start
position becomes `18 - 200 = -182` and the sentence scan reads `text[-162]`,
out of range for a 38-character string — instead of producing the two
sentence chunks the spec expects. -/
theorem C7_raises_index_error :
    split_text 10 "Alpha causes Beta. Gamma is unrelated.".data 20 200 =
      SplitResult.indexError := by decide

/-- Claim C8: `delete_document` removes exactly the entries with the given
identifier and keeps every other entry; since `add_document` returns only the
first chunk's identifier, deleting by the returned id leaves the document's
other chunks in the index (no cascading deletion). -/
theorem C8_delete_by_identifier_only :
    (∀ (db : List IndexEntry) (docId : String) (e : IndexEntry),
      e ∈ db → e.id ≠ docId → e ∈ (delete_document db docId).1) ∧
    (∀ (db : List IndexEntry) (docId : String) (e : IndexEntry),
      e ∈ (delete_document db docId).1 → e ∈ db ∧ e.id ≠ docId) ∧
    (sampleAdd.map Prod.fst = some "0" ∧
      sampleAdd.map (fun p => p.2.map IndexEntry.id) = some ["0", "1"] ∧
      sampleAdd.map (fun p => (delete_document p.2 "0").1.map IndexEntry.id) =
        some ["1"]) := by
  refine ⟨?_, ?_, by decide, by decide, by decide⟩
  · intro db docId e he hne
    simp [delete_document, List.mem_filter, he, hne]
  · intro db docId e he
    simp only [delete_document, List.mem_filter] at he
    refine ⟨he.1, ?_⟩
    simpa using he.2

/-- Witness for C8: deleting `"gone"` keeps the entry `"keep"`. -/
theorem C8_delete_by_identifier_only_witness :
    IndexEntry.mk "keep" [] [] [] ∈
      (delete_document [IndexEntry.mk "keep" [] [] [],
        IndexEntry.mk "gone" [] [] []] "gone").1 :=
  C8_delete_by_identifier_only.1
    [IndexEntry.mk "keep" [] [] [], IndexEntry.mk "gone" [] [] []] "gone"
    (IndexEntry.mk "keep" [] [] []) (by decide) (by decide)

/-- Claim C9 counterexample: on a response body whose `text` field is JSON
`null`, `answer_question` RAISES an `AttributeError` (`None.strip()` escapes
both `except` clauses of `gemini_call`) instead of returning an error string,
and the composed `try_answer_with_retry` catches it in its `except` branch
and returns the SENTINEL failure string — not a value of `answer_question`,
which has none here. -/
theorem C9_counterexample :
    answer_question (fun _ => ApiOutcome.body nullTextBody)
      "policy text" "What holds?" = Except.error PyExc.attributeError ∧
    try_answer_with_retry (fun _ => "'NoneType' object has no attribute 'strip'")
      (fun _ => ApiOutcome.body nullTextBody) "policy text" "What holds?" =
      ("Failed to answer due to rate limiting or internal error.", [], 1) :=
  ⟨rfl, rfl⟩

/-- Claim C9 (amended): the composed `try_answer_with_retry` always finishes
on its FIRST attempt with no backoff sleeps. When `answer_question` returns —
network errors, HTTP/429 errors and missing-field bodies are all converted to
returned error strings — the wrapper returns exactly that value; when the
response drill raises an uncaught `TypeError`/`AttributeError` (non-dict
body, `null`/non-string `text` field), whose interpreter message contains no
`"429"`, the wrapper's `except` branch catches it and returns the sentinel
failure string. So the retry/backoff branch stays unreachable, but the
`except` branch IS reachable and yields the sentinel, not an
`answer_question` value. -/
theorem C9_first_attempt (excStr : PyExc → String) (net : String → ApiOutcome)
    (context question : String) :
    (∀ v : String, answer_question net context question = Except.ok v →
      try_answer_with_retry excStr net context question = (v, [], 1)) ∧
    (∀ exc : PyExc, answer_question net context question = Except.error exc →
      hasSub "429".data ((excStr exc).data) = false →
      try_answer_with_retry excStr net context question =
        ("Failed to answer due to rate limiting or internal error.", [], 1)) := by
  constructor
  · intro v hv
    unfold try_answer_with_retry tryAnswerWithRetry
    show retryLoop _ 3 (2 + 1) 1 2 [] = (v, [], 1)
    simp only [retryLoop, hv]
  · intro exc hexc h429
    unfold try_answer_with_retry tryAnswerWithRetry
    show retryLoop _ 3 (2 + 1) 1 2 [] = _
    simp only [retryLoop, hexc]
    rw [if_neg (fun hc => absurd hc.1 (by simp [h429]))]

/-- Witness for the amended C9 at a concrete well-formed response. -/
theorem C9_first_attempt_witness :
    try_answer_with_retry (fun _ => "") (fun _ => ApiOutcome.body goodBody)
      "policy text" "What holds?" = ("The answer", [], 1) :=
  (C9_first_attempt (fun _ => "") (fun _ => ApiOutcome.body goodBody)
    "policy text" "What holds?").1 "The answer" rfl

/-- Claim C10: at the pipeline's only parameterisation
(`chunk_size = 1000`, `overlap = 200`, via `add_document`), `_split_text`
terminates on every input text — fuel `text.length + 1` always suffices and
the loop returns normally — because each iteration's snapped window end makes
the start advance by at least `chunk_size - overlap - 98` characters, which is
strictly positive for these parameters. -/
theorem C10_split_text_terminates (text : List Char) :
    (∃ chunks, split_text (text.length + 1) text 1000 200 = SplitResult.ok chunks) ∧
    (∀ start stop : Int, 0 ≤ start → snapStop text start (start + 1000) = some stop →
      start + (1000 - 200 - 98) ≤ stop - 200) := by
  constructor
  · unfold split_text
    split_ifs with hfit
    · exact ⟨[text], rfl⟩
    · exact splitLoop_ok_1000_200 text (text.length + 1) 0 [] (by omega) (by omega)
        (by push_cast; omega)
  · intro start stop h0 hsnap
    have hw := snapStop_window (by omega) hsnap
    omega

/-- Witness for the advance-bound part of C10 at one concrete iteration of
the sample text: the window end snaps to 1000 and the next start is 800,
at least `1000 - 200 - 98` beyond the previous start 0. -/
theorem C10_split_text_terminates_witness :
    (0 : Int) + (1000 - 200 - 98) ≤ 1000 - 200 :=
  (C10_split_text_terminates sampleText).2 0 1000 (by omega) (by decide)

end HackRxLLM
